import Mathlib

/-!
Shallow embedding of `src/src/lib/mockValidator.ts` (PoQ Sentinel — Hardened
Validation Engine v2.0), a deterministic rule-based content-quality evaluator.

Modelling conventions:
* JS strings are `List Char`; `charCodeAt` and `length` agree with the
  code-point model on the ASCII texts the validator manipulates.
* JS numbers are `ℚ` (every arithmetic step of the validator stays exact on
  rationals); `Math.round` is `jsRound`, JS round-half-up made exact on `ℚ`.
* `Math.round` always yields an integral number, so the composite
  `qualityScore` is carried as `ℤ`.
* JSON-like submission values are the inductive `Json`; a numeric leaf carries
  its JS decimal rendering (the validator only ever uses that rendering, via
  `String(n)` and `JSON.stringify`).
* Each regular expression of the validator is a word-boundary,
  case-insensitive alternation of fixed phrases; it is compiled here to the
  list of its alternative phrases.  Every phrase starts and ends with a word
  character, so the `\b...\b` convention of the source is: the phrase occurs
  with a non-word character (or the text edge) on both sides.
* The wall clock (`new Date().toISOString()`) is passed in as the explicit
  `timestamp` argument; it is the only non-deterministic input of the source.
-/

/-- JS `\s` on the ASCII texts in scope: space, tab, newline, carriage
return, vertical tab, form feed. -/
def isWS (c : Char) : Bool :=
  c == ' ' || c == '\t' || c == '\n' || c == '\r' || c.toNat == 11 || c.toNat == 12

/-- The character class `[.!?]` of the sentence splitter. -/
def isSentSep (c : Char) : Bool :=
  c == '.' || c == '!' || c == '?'

/-- ASCII lower-casing of one character (JS `toLowerCase` on ASCII input). -/
def asciiLowerChar (c : Char) : Char :=
  if 65 ≤ c.toNat ∧ c.toNat ≤ 90 then Char.ofNat (c.toNat + 32) else c

/-- JS `String.prototype.toLowerCase` on ASCII text. -/
def lowerText (s : List Char) : List Char := s.map asciiLowerChar

/-- The character class `[A-Z]` used by the caps-ratio detector. -/
def isUpperChar (c : Char) : Bool := 65 ≤ c.toNat && c.toNat ≤ 90

/-- Regex word character `[A-Za-z0-9_]`, for `\b` boundaries. -/
def isWordChar (c : Char) : Bool :=
  (97 ≤ c.toNat && c.toNat ≤ 122) || (65 ≤ c.toNat && c.toNat ≤ 90) ||
  (48 ≤ c.toNat && c.toNat ≤ 57) || c == '_'

/-- Split a character list at every separator character.  JS
`String.prototype.split` against a character class; a run of separators here
yields empty segments where JS `/\s+/` merges the run, but every use site in
the source filters the empty segments away, so the filtered results agree. -/
def splitOnPred (p : Char → Bool) : List Char → List Char → List (List Char)
  | [], acc => [acc.reverse]
  | c :: cs, acc =>
    if p c then acc.reverse :: splitOnPred p cs []
    else splitOnPred p cs (c :: acc)

/-- `text.split(/\s+/).filter(Boolean)`. -/
def rawWords (text : List Char) : List (List Char) :=
  (splitOnPred isWS text []).filter (fun w => !w.isEmpty)

/-- `wordCount` from the source. -/
def wordCount (text : List Char) : ℕ := (rawWords text).length

/-- JS `Math.round`: round half toward positive infinity, exact on `ℚ`. -/
def jsRound (x : ℚ) : ℤ := ⌊x + 1/2⌋

/-- `Math.round` as a JS number (an integral rational). -/
def jsRoundQ (x : ℚ) : ℚ := (jsRound x : ℚ)

/-- JS `String.prototype.trim` (ASCII whitespace model). -/
def jsTrim (s : List Char) : List Char :=
  ((s.dropWhile isWS).reverse.dropWhile isWS).reverse

/-- `uniqueWordRatio` from the source: distinct lower-cased tokens over total
tokens, 0 for token-free text. -/
def uniqueWordRatio (text : List Char) : ℚ :=
  let words := (splitOnPred isWS (lowerText text) []).filter (fun w => !w.isEmpty)
  if words.length = 0 then 0
  else (words.dedup.length : ℚ) / (words.length : ℚ)

/-- A compiled pattern: the alternative phrases of one source regular
expression (each alternative matched case-insensitively between word
boundaries). -/
abbrev Pat := List (List Char)

def mkPat (alts : List String) : Pat := alts.map String.toList

/-- `VAGUE_PATTERNS` from the source. -/
def VAGUE_PATTERNS : List Pat :=
  [ mkPat ["slightly"], mkPat ["somewhat"], mkPat ["kind of"], mkPat ["sort of"],
    mkPat ["maybe"], mkPat ["probably"], mkPat ["might"], mkPat ["could be"],
    mkPat ["possibly"], mkPat ["i think"], mkPat ["i guess"], mkPat ["not sure"],
    mkPat ["perhaps"], mkPat ["generally"], mkPat ["usually"], mkPat ["typically"] ]

/-- `TEMPLATE_PHRASES` from the source, alternation groups expanded. -/
def TEMPLATE_PHRASES : List Pat :=
  [ mkPat ["please find below", "please find attached", "please find herein"],
    mkPat ["as per your request", "as per your instructions",
           "as per the request", "as per the instructions"],
    mkPat ["i have completed the task", "i have completed the assignment"],
    mkPat ["here is my submission", "here is my response", "here is my answer",
           "here is the submission", "here is the response", "here is the answer"],
    mkPat ["the answer is as follows", "the result is as follows",
           "the output is as follows"],
    mkPat ["lorem ipsum"],
    mkPat ["test test"],
    mkPat ["asdf"],
    mkPat ["foo bar"] ]

/-- `FILLER_PATTERNS` from the source, alternation groups expanded. -/
def FILLER_PATTERNS : List Pat :=
  [ mkPat ["in order of", "in order to", "in terms of", "in terms to"],
    mkPat ["it is noted that", "it is mentioned that",
           "it should be noted that", "it should be mentioned that"],
    mkPat ["as we can see", "as we can know", "as we can understand",
           "as we know see", "as we know know", "as we know understand",
           "as we may see", "as we may know", "as we may understand",
           "as you can see", "as you can know", "as you can understand",
           "as you know see", "as you know know", "as you know understand",
           "as you may see", "as you may know", "as you may understand"],
    mkPat ["at the end of the day"],
    mkPat ["moving forward"],
    mkPat ["that being said"] ]

/-- Does the phrase match at the head of the text, with a word boundary
after its final character? -/
def matchHere : List Char → List Char → Bool
  | [], [] => true
  | [], c :: _ => !isWordChar c
  | _ :: _, [] => false
  | p :: ps, c :: cs => p == c && matchHere ps cs

/-- Is the position after `prev` a word boundary for a phrase that starts
with a word character? -/
def boundaryOk : Option Char → Bool
  | none => true
  | some c => !isWordChar c

/-- Scan the text for a boundary-delimited occurrence of the phrase. -/
def scanFrom (phrase : List Char) (prev : Option Char) : List Char → Bool
  | [] => boundaryOk prev && matchHere phrase []
  | c :: cs =>
    (boundaryOk prev && matchHere phrase (c :: cs)) || scanFrom phrase (some c) cs

/-- `p.test(text)` for one compiled pattern (case-insensitive, word
boundaries at both ends). -/
def patternTest (p : Pat) (text : List Char) : Bool :=
  p.any (fun phrase => scanFrom phrase none (lowerText text))

/-- `countMatches` from the source: the number of distinct patterns of the
list that the text matches (each pattern contributes at most 1). -/
def countMatches (text : List Char) (patterns : List Pat) : ℕ :=
  patterns.foldl (fun c p => c + (if patternTest p text then 1 else 0)) 0

/-- JSON-compatible values, as the evaluator sees them.  A numeric leaf
carries its JS decimal rendering. -/
inductive Json : Type
  | str : List Char → Json
  | num : List Char → Json
  | bool : Bool → Json
  | null : Json
  | arr : List Json → Json
  | obj : List (List Char × Json) → Json

mutual

/-- `flattenToText` from the source: strings pass through, numbers and
booleans stringify, arrays and object values flatten recursively and join
with single spaces, anything else becomes empty text. -/
def flattenToText : Json → List Char
  | Json.str s => s
  | Json.num r => r
  | Json.bool b => if b then "true".toList else "false".toList
  | Json.null => []
  | Json.arr xs => List.intercalate [' '] (flattenParts xs)
  | Json.obj fields => List.intercalate [' '] (flattenVals fields)

def flattenParts : List Json → List (List Char)
  | [] => []
  | x :: xs => flattenToText x :: flattenParts xs

def flattenVals : List (List Char × Json) → List (List Char)
  | [] => []
  | (_, v) :: fs => flattenToText v :: flattenVals fs

end

/-- One escaped character of a JSON string literal (`JSON.stringify`). -/
def escChar (c : Char) : List Char :=
  if c == '"' then ['\\', '"']
  else if c == '\\' then ['\\', '\\']
  else if c == '\n' then ['\\', 'n']
  else if c == '\t' then ['\\', 't']
  else if c == '\r' then ['\\', 'r']
  else if c.toNat == 8 then ['\\', 'b']
  else if c.toNat == 12 then ['\\', 'f']
  else if c.toNat < 32 then
    ['\\', 'u', '0', '0', Nat.digitChar (c.toNat / 16), Nat.digitChar (c.toNat % 16)]
  else [c]

def escStr (s : List Char) : List Char := s.foldr (fun c acc => escChar c ++ acc) []

def quoteStr (s : List Char) : List Char := '"' :: (escStr s ++ ['"'])

mutual

/-- `JSON.stringify` on the `Json` model. -/
def jsonStringify : Json → List Char
  | Json.str s => quoteStr s
  | Json.num r => r
  | Json.bool b => if b then "true".toList else "false".toList
  | Json.null => "null".toList
  | Json.arr xs => '[' :: (List.intercalate [','] (stringifyParts xs) ++ [']'])
  | Json.obj fields =>
    Char.ofNat 123 :: (List.intercalate [','] (stringifyFields fields) ++ [Char.ofNat 125])

def stringifyParts : List Json → List (List Char)
  | [] => []
  | x :: xs => jsonStringify x :: stringifyParts xs

def stringifyFields : List (List Char × Json) → List (List Char)
  | [] => []
  | (k, v) :: fs => (quoteStr k ++ ':' :: jsonStringify v) :: stringifyFields fs

end

-- --- Scoring functions ---

/-- `scoreRelevance` from the source. -/
def scoreRelevance (task : List Char) (submission : List Char) : ℚ :=
  let taskWords := ((splitOnPred isWS (lowerText task) []).filter (fun w => 3 < w.length)).dedup
  let subWords := (splitOnPred isWS (lowerText submission) []).filter (fun w => 3 < w.length)
  if taskWords.length = 0 ∨ subWords.length = 0 then 0
  else
    let hits := (subWords.filter (fun w => decide (w ∈ taskWords))).length
    let overlap : ℚ := (hits : ℚ) / (taskWords.length : ℚ)
    if overlap < 0.05 then jsRoundQ (overlap * 100)
    else min 100 (jsRoundQ (overlap * 120))

/-- `scoreCompleteness` from the source. -/
def scoreCompleteness (task : List Char) (submission : List Char) : ℚ :=
  let taskSentences := (splitOnPred isSentSep task []).filter (fun s => 10 < (jsTrim s).length)
  let subLength := wordCount submission
  if subLength < 10 then min 15 ((subLength : ℚ) * 2)
  else if subLength < 25 then min 35 (15 + (subLength : ℚ))
  else if subLength < 50 then min 55 (30 + (subLength : ℚ) / 2)
  else
    let taskAspects := if taskSentences.length = 0 then 1 else taskSentences.length
    let coverageBonus := min 30 (((subLength : ℚ) / ((taskAspects : ℚ) * 20)) * 30)
    min 100 (jsRoundQ (40 + coverageBonus + uniqueWordRatio submission * 30))

/-- `scoreClarity` from the source. -/
def scoreClarity (submission : List Char) : ℚ :=
  let words := wordCount submission
  if words < 5 then 0
  else
    let vagueHits := countMatches submission VAGUE_PATTERNS
    let fillerHits := countMatches submission FILLER_PATTERNS
    let uniqueness := uniqueWordRatio submission
    let score : ℚ := 70
    let score := score - (vagueHits : ℚ) * 12
    let score := score - (fillerHits : ℚ) * 8
    let score := if uniqueness > 0.7 then score + 15
      else if uniqueness < 0.4 then score - 20 else score
    let score := if words < 15 then score - 25 else score
    max 0 (min 100 (jsRoundQ score))

/-- `scoreSpam` from the source (higher = more spam). -/
def scoreSpam (submission : List Char) : ℚ :=
  let templateHits := countMatches submission TEMPLATE_PHRASES
  let score : ℚ := (templateHits : ℚ) * 20
  let words := (splitOnPred isWS (lowerText submission) []).filter (fun w => !w.isEmpty)
  let score :=
    if 5 < words.length then
      if uniqueWordRatio submission < 0.3 then score + 40
      else if uniqueWordRatio submission < 0.5 then score + 20
      else score
    else score
  let score := if words.length < 10 ∧ 0 < templateHits then score + 25 else score
  let capsRatio := ((submission.filter isUpperChar).length : ℚ) / max 1 (submission.length : ℚ)
  let score := if capsRatio > 0.5 ∧ 20 < submission.length then score + 15 else score
  min 100 score

-- --- Gated verdict logic ---

inductive Forced : Type
  | REJECT
  | REVIEW
deriving DecidableEq

inductive Verdict : Type
  | ACCEPT
  | REVIEW
  | REJECT
deriving DecidableEq

structure ScoreBreakdown where
  relevance : ℚ
  completeness : ℚ
  clarity : ℚ
  spam : ℚ
deriving DecidableEq

structure GateFailure where
  gate : List Char
  reason : List Char
  forced : Forced
deriving DecidableEq

/-- `failures.some(f => f.forced === "REJECT")`. -/
def hasForcedReject (fs : List GateFailure) : Bool :=
  fs.any (fun f => f.forced == Forced.REJECT)

/-- `failures.some(f => f.forced === "REVIEW")`. -/
def hasForcedReview (fs : List GateFailure) : Bool :=
  fs.any (fun f => f.forced == Forced.REVIEW)

def relevanceFloorGF : GateFailure :=
  { gate := "RELEVANCE_FLOOR".toList,
    reason := "Relevance below 15 — submission does not address the task".toList,
    forced := Forced.REJECT }

def clarityFloorGF : GateFailure :=
  { gate := "CLARITY_FLOOR".toList,
    reason := "Clarity below 10 — submission is incoherent or entirely vague".toList,
    forced := Forced.REJECT }

def spamCeilingGF : GateFailure :=
  { gate := "SPAM_CEILING".toList,
    reason := "Spam score exceeds 60 — high likelihood of template abuse or repetition".toList,
    forced := Forced.REJECT }

def minLengthGF : GateFailure :=
  { gate := "MIN_LENGTH".toList,
    reason := "Submission under 8 words — insufficient content for evaluation".toList,
    forced := Forced.REJECT }

def spamWarningGF : GateFailure :=
  { gate := "SPAM_WARNING".toList,
    reason := "Spam score exceeds 30 — cannot be auto-accepted, requires human review".toList,
    forced := Forced.REVIEW }

def completenessFloorGF : GateFailure :=
  { gate := "COMPLETENESS_FLOOR".toList,
    reason := "Completeness below 40 — submission is partial or superficial".toList,
    forced := Forced.REVIEW }

def vagueLanguageGF : GateFailure :=
  { gate := "VAGUE_LANGUAGE".toList,
    reason := "3+ vague qualifiers detected — hedging language undermines confidence".toList,
    forced := Forced.REVIEW }

/-- `evaluateGates` from the source: REJECT gates push unconditionally in
fixed order; each REVIEW gate additionally requires that no REJECT entry is
already in the accumulated list. -/
def evaluateGates (breakdown : ScoreBreakdown) (submissionText : List Char) : List GateFailure :=
  let failures : List GateFailure := []
  let failures := if breakdown.relevance < 15 then failures ++ [relevanceFloorGF] else failures
  let failures := if breakdown.clarity < 10 then failures ++ [clarityFloorGF] else failures
  let failures := if breakdown.spam > 60 then failures ++ [spamCeilingGF] else failures
  let failures := if wordCount submissionText < 8 then failures ++ [minLengthGF] else failures
  let failures :=
    if breakdown.spam > 30 ∧ hasForcedReject failures = false
    then failures ++ [spamWarningGF] else failures
  let failures :=
    if breakdown.completeness < 40 ∧ hasForcedReject failures = false
    then failures ++ [completenessFloorGF] else failures
  let failures :=
    if 3 ≤ countMatches submissionText VAGUE_PATTERNS ∧ hasForcedReject failures = false
    then failures ++ [vagueLanguageGF] else failures
  failures

/-- `computeVerdict` from the source. -/
def computeVerdict (qualityScore : ℤ) (gateFailures : List GateFailure) : Verdict :=
  if hasForcedReject gateFailures then Verdict.REJECT
  else
    let hasReview := hasForcedReview gateFailures
    if qualityScore < 50 then Verdict.REJECT
    else if qualityScore < 75 ∨ hasReview = true then Verdict.REVIEW
    else Verdict.ACCEPT

-- --- Hash utility ---

/-- JS `x | 0`: wrap an integer into the signed 32-bit range. -/
def toInt32 (z : ℤ) : ℤ := (z + 2 ^ 31) % 2 ^ 32 - 2 ^ 31

/-- One step of the rolling hash: `h = ((h << 5) - h + code) | 0`.  The
32-bit shift `h << 5` is itself a wrap of `h * 32`. -/
def hashStep (h : ℤ) (code : ℕ) : ℤ := toInt32 (toInt32 (h * 32) - h + (code : ℤ))

/-- The accumulated signed 32-bit hash value of a text, seeded at 0. -/
def hashAcc (s : List Char) : ℤ := s.foldl (fun h c => hashStep h c.toNat) 0

/-- Zero-pad a digit list on the left to 16 digits (`padStart(16, "0")`). -/
def padStart16 (l : List Char) : List Char := List.replicate (16 - l.length) '0' ++ l

/-- `hash` from the source: rolling 32-bit hash rendered as
`"0x" + abs(h).toString(16).padStart(16, "0")`. -/
def hashStr (s : List Char) : List Char :=
  '0' :: 'x' :: padStart16 (Nat.toDigits 16 (hashAcc s).natAbs)

/-- JS rendering of an integral number (used where the source concatenates
`qualityScore` into the signature input). -/
def intToStr (i : ℤ) : List Char :=
  if i < 0 then '-' :: Nat.toDigits 10 i.natAbs else Nat.toDigits 10 i.natAbs

-- --- Main entry point ---

structure Attestation where
  version : List Char
  timestamp : List Char
  taskHash : List Char
  submissionHash : List Char
  qualityScore : ℤ
  breakdown : ScoreBreakdown
  verdict : Verdict
  gateFailures : List GateFailure
  validatorId : List Char
  signature : List Char
deriving DecidableEq

structure ValidationResult where
  qualityScore : ℤ
  breakdown : ScoreBreakdown
  verdict : Verdict
  gateFailures : List GateFailure
  attestation : Attestation
deriving DecidableEq

/-- `runValidation` from the source.  The task parameter is a string (the
source's `typeof task === "string"` test is therefore always true), and the
wall-clock reading is the explicit `timestamp` argument. -/
def runValidation (task : List Char) (submission : Json) (timestamp : List Char) : ValidationResult :=
  let submissionText := flattenToText submission
  let taskStr := task
  let breakdown : ScoreBreakdown :=
    { relevance := scoreRelevance taskStr submissionText,
      completeness := scoreCompleteness taskStr submissionText,
      clarity := scoreClarity submissionText,
      spam := scoreSpam submissionText }
  let qualityScore : ℤ := jsRound
    (breakdown.relevance * 0.30 +
     breakdown.completeness * 0.30 +
     breakdown.clarity * 0.25 +
     (100 - breakdown.spam) * 0.15)
  let gateFailures := evaluateGates breakdown submissionText
  let verdict := computeVerdict qualityScore gateFailures
  { qualityScore := qualityScore,
    breakdown := breakdown,
    verdict := verdict,
    gateFailures := gateFailures,
    attestation :=
      { version := "2.0.0".toList,
        timestamp := timestamp,
        taskHash := hashStr taskStr,
        submissionHash := hashStr (jsonStringify submission),
        qualityScore := qualityScore,
        breakdown := breakdown,
        verdict := verdict,
        gateFailures := gateFailures,
        validatorId := "poq-sentinel-v2".toList,
        signature := hashStr (taskStr ++ jsonStringify submission ++ intToStr qualityScore) } }

-- --- Spec-side comparison definitions ---

/-- The relevance scorer exactly as the claim words it: task keywords as a
finite set, submission hits counted with multiplicity against that set. -/
def relevanceSpec (task : List Char) (submission : List Char) : ℚ :=
  let taskSet : Finset (List Char) :=
    ((splitOnPred isWS (lowerText task) []).filter (fun w => 3 < w.length)).toFinset
  let subWords := (splitOnPred isWS (lowerText submission) []).filter (fun w => 3 < w.length)
  if taskSet = ∅ ∨ subWords = [] then 0
  else
    let hits := (subWords.filter (fun w => decide (w ∈ taskSet))).length
    let overlap : ℚ := (hits : ℚ) / (taskSet.card : ℚ)
    if overlap < 0.05 then jsRoundQ (overlap * 100)
    else min 100 (jsRoundQ (overlap * 120))

/-- The REJECT-tier gate checks, each firing independently, in the fixed
order of the claim. -/
def rejectFailures (breakdown : ScoreBreakdown) (submissionText : List Char) : List GateFailure :=
  (if breakdown.relevance < 15 then [relevanceFloorGF] else []) ++
  (if breakdown.clarity < 10 then [clarityFloorGF] else []) ++
  (if breakdown.spam > 60 then [spamCeilingGF] else []) ++
  (if wordCount submissionText < 8 then [minLengthGF] else [])

/-- The REVIEW-tier gate checks, in the fixed order of the claim. -/
def reviewFailures (breakdown : ScoreBreakdown) (submissionText : List Char) : List GateFailure :=
  (if breakdown.spam > 30 then [spamWarningGF] else []) ++
  (if breakdown.completeness < 40 then [completenessFloorGF] else []) ++
  (if 3 ≤ countMatches submissionText VAGUE_PATTERNS then [vagueLanguageGF] else [])

/-- The gate evaluator as the claim words it: all REJECT checks, followed by
the REVIEW checks exactly when no REJECT check fired. -/
def gatesSpec (breakdown : ScoreBreakdown) (submissionText : List Char) : List GateFailure :=
  rejectFailures breakdown submissionText ++
  (if rejectFailures breakdown submissionText = []
   then reviewFailures breakdown submissionText else [])

/-- Signed 32-bit wraparound, as the claim words it. -/
def wrap32 (z : ℤ) : ℤ := (z + 2 ^ 31) % 2 ^ 32 - 2 ^ 31

/-- One hash step as the claim words it: `h = ((h<<5) - h + charCode)` with a
single signed 32-bit wraparound of the whole expression. -/
def hashSpecStep (h : ℤ) (code : ℕ) : ℤ := wrap32 (h * 32 - h + (code : ℤ))

def hashSpecAcc (s : List Char) : ℤ := s.foldl (fun h c => hashSpecStep h c.toNat) 0

/-- The fingerprint as the claim words it: `"0x"` followed by the absolute
value of the accumulated hash in hexadecimal, zero-padded to 16 digits. -/
def hashSpec (s : List Char) : List Char :=
  '0' :: 'x' :: padStart16 (Nat.toDigits 16 (hashSpecAcc s).natAbs)

-- --- Checked-division pipeline (totality witness for the source) ---

/-- Division that fails instead of defaulting when the denominator is 0. -/
def checkedDiv (a b : ℚ) : Option ℚ := if b = 0 then none else some (a / b)

/-- `uniqueWordRatio` with its division checked. -/
def uniqueWordRatioE (text : List Char) : Option ℚ :=
  let words := (splitOnPred isWS (lowerText text) []).filter (fun w => !w.isEmpty)
  if words.length = 0 then some 0
  else checkedDiv (words.dedup.length : ℚ) (words.length : ℚ)

/-- `scoreRelevance` with its division checked. -/
def scoreRelevanceE (task : List Char) (submission : List Char) : Option ℚ :=
  let taskWords := ((splitOnPred isWS (lowerText task) []).filter (fun w => 3 < w.length)).dedup
  let subWords := (splitOnPred isWS (lowerText submission) []).filter (fun w => 3 < w.length)
  if taskWords.length = 0 ∨ subWords.length = 0 then some 0
  else do
    let hits := (subWords.filter (fun w => decide (w ∈ taskWords))).length
    let overlap ← checkedDiv (hits : ℚ) (taskWords.length : ℚ)
    if overlap < 0.05 then some (jsRoundQ (overlap * 100))
    else some (min 100 (jsRoundQ (overlap * 120)))

/-- `scoreCompleteness` with its divisions checked. -/
def scoreCompletenessE (task : List Char) (submission : List Char) : Option ℚ :=
  let taskSentences := (splitOnPred isSentSep task []).filter (fun s => 10 < (jsTrim s).length)
  let subLength := wordCount submission
  if subLength < 10 then some (min 15 ((subLength : ℚ) * 2))
  else if subLength < 25 then some (min 35 (15 + (subLength : ℚ)))
  else if subLength < 50 then do
    let h ← checkedDiv (subLength : ℚ) 2
    some (min 55 (30 + h))
  else do
    let taskAspects := if taskSentences.length = 0 then 1 else taskSentences.length
    let q ← checkedDiv (subLength : ℚ) ((taskAspects : ℚ) * 20)
    let u ← uniqueWordRatioE submission
    some (min 100 (jsRoundQ (40 + min 30 (q * 30) + u * 30)))

/-- `scoreClarity` with its division checked. -/
def scoreClarityE (submission : List Char) : Option ℚ :=
  let words := wordCount submission
  if words < 5 then some 0
  else do
    let vagueHits := countMatches submission VAGUE_PATTERNS
    let fillerHits := countMatches submission FILLER_PATTERNS
    let uniqueness ← uniqueWordRatioE submission
    let score : ℚ := 70
    let score := score - (vagueHits : ℚ) * 12
    let score := score - (fillerHits : ℚ) * 8
    let score := if uniqueness > 0.7 then score + 15
      else if uniqueness < 0.4 then score - 20 else score
    let score := if words < 15 then score - 25 else score
    some (max 0 (min 100 (jsRoundQ score)))

/-- `scoreSpam` with its divisions checked. -/
def scoreSpamE (submission : List Char) : Option ℚ := do
  let templateHits := countMatches submission TEMPLATE_PHRASES
  let score : ℚ := (templateHits : ℚ) * 20
  let words := (splitOnPred isWS (lowerText submission) []).filter (fun w => !w.isEmpty)
  let score ←
    if 5 < words.length then do
      let ratio ← uniqueWordRatioE submission
      if ratio < 0.3 then some (score + 40)
      else if ratio < 0.5 then some (score + 20)
      else some score
    else some score
  let score := if words.length < 10 ∧ 0 < templateHits then score + 25 else score
  let capsRatio ← checkedDiv ((submission.filter isUpperChar).length : ℚ) (max 1 (submission.length : ℚ))
  let score := if capsRatio > 0.5 ∧ 20 < submission.length then score + 15 else score
  some (min 100 score)

/-- `runValidation` with every division of the pipeline checked. -/
def runValidationE (task : List Char) (submission : Json) (timestamp : List Char) :
    Option ValidationResult := do
  let submissionText := flattenToText submission
  let taskStr := task
  let relevance ← scoreRelevanceE taskStr submissionText
  let completeness ← scoreCompletenessE taskStr submissionText
  let clarity ← scoreClarityE submissionText
  let spam ← scoreSpamE submissionText
  let breakdown : ScoreBreakdown :=
    { relevance := relevance, completeness := completeness,
      clarity := clarity, spam := spam }
  let qualityScore : ℤ := jsRound
    (breakdown.relevance * 0.30 +
     breakdown.completeness * 0.30 +
     breakdown.clarity * 0.25 +
     (100 - breakdown.spam) * 0.15)
  let gateFailures := evaluateGates breakdown submissionText
  let verdict := computeVerdict qualityScore gateFailures
  some
    { qualityScore := qualityScore,
      breakdown := breakdown,
      verdict := verdict,
      gateFailures := gateFailures,
      attestation :=
        { version := "2.0.0".toList,
          timestamp := timestamp,
          taskHash := hashStr taskStr,
          submissionHash := hashStr (jsonStringify submission),
          qualityScore := qualityScore,
          breakdown := breakdown,
          verdict := verdict,
          gateFailures := gateFailures,
          validatorId := "poq-sentinel-v2".toList,
          signature := hashStr (taskStr ++ jsonStringify submission ++ intToStr qualityScore) } }

-- --- Arithmetic helper lemmas ---

lemma jsRound_nonneg {x : ℚ} (h : 0 ≤ x) : 0 ≤ jsRound x := by
  unfold jsRound
  exact Int.le_floor.mpr (by push_cast; linarith)

lemma jsRound_le {n : ℤ} {x : ℚ} (h : x ≤ (n : ℚ)) : jsRound x ≤ n := by
  have h2 : jsRound x < n + 1 := by
    unfold jsRound
    rw [Int.floor_lt]
    push_cast
    linarith
  omega

lemma jsRoundQ_nonneg {x : ℚ} (h : 0 ≤ x) : 0 ≤ jsRoundQ x := by
  unfold jsRoundQ
  exact_mod_cast jsRound_nonneg h

lemma jsRoundQ_le {n : ℤ} {x : ℚ} (h : x ≤ (n : ℚ)) : jsRoundQ x ≤ (n : ℚ) := by
  unfold jsRoundQ
  exact_mod_cast jsRound_le h

lemma exists_int_min {x y : ℚ} (hx : ∃ n : ℤ, x = (n : ℚ)) (hy : ∃ n : ℤ, y = (n : ℚ)) :
    ∃ n : ℤ, min x y = (n : ℚ) := by
  obtain ⟨a, rfl⟩ := hx
  obtain ⟨b, rfl⟩ := hy
  exact ⟨min a b, by push_cast; rfl⟩

lemma exists_int_max {x y : ℚ} (hx : ∃ n : ℤ, x = (n : ℚ)) (hy : ∃ n : ℤ, y = (n : ℚ)) :
    ∃ n : ℤ, max x y = (n : ℚ) := by
  obtain ⟨a, rfl⟩ := hx
  obtain ⟨b, rfl⟩ := hy
  exact ⟨max a b, by push_cast; rfl⟩

lemma exists_int_num (n : ℤ) : ∃ m : ℤ, (n : ℚ) = (m : ℚ) := ⟨n, rfl⟩

lemma exists_int_jsRoundQ (x : ℚ) : ∃ n : ℤ, jsRoundQ x = (n : ℚ) := ⟨jsRound x, rfl⟩

lemma two_mul_min (a b : ℚ) : 2 * min a b = min (2 * a) (2 * b) := by
  rcases le_total a b with h | h
  · rw [min_eq_left h, min_eq_left (by linarith)]
  · rw [min_eq_right h, min_eq_right (by linarith)]

lemma uniqueWordRatio_nonneg (t : List Char) : 0 ≤ uniqueWordRatio t := by
  simp only [uniqueWordRatio]
  split
  · exact le_refl 0
  · positivity

-- --- Scorer range lemmas ---

lemma relevance_branch_bounds (ov : ℚ) (hnn : 0 ≤ ov) :
    0 ≤ (if ov < 0.05 then jsRoundQ (ov * 100) else min 100 (jsRoundQ (ov * 120))) ∧
    (if ov < 0.05 then jsRoundQ (ov * 100) else min 100 (jsRoundQ (ov * 120))) ≤ 100 ∧
    ∃ n : ℤ, (if ov < 0.05 then jsRoundQ (ov * 100) else min 100 (jsRoundQ (ov * 120))) = (n : ℚ) := by
  split_ifs with h
  · refine ⟨jsRoundQ_nonneg (by positivity), ?_, exists_int_jsRoundQ _⟩
    have h100 : jsRoundQ (ov * 100) ≤ ((100 : ℤ) : ℚ) := jsRoundQ_le (by push_cast; linarith)
    exact_mod_cast h100
  · exact ⟨le_min (by norm_num) (jsRoundQ_nonneg (by positivity)), min_le_left _ _,
      exists_int_min ⟨100, by norm_num⟩ (exists_int_jsRoundQ _)⟩

lemma scoreRelevance_bounds (t s : List Char) :
    0 ≤ scoreRelevance t s ∧ scoreRelevance t s ≤ 100 ∧
      ∃ n : ℤ, scoreRelevance t s = (n : ℚ) := by
  simp only [scoreRelevance]
  split
  · exact ⟨le_refl 0, by norm_num, 0, by norm_num⟩
  · exact relevance_branch_bounds _ (by positivity)

lemma scoreClarity_bounds (s : List Char) :
    0 ≤ scoreClarity s ∧ scoreClarity s ≤ 100 ∧
      ∃ n : ℤ, scoreClarity s = (n : ℚ) := by
  simp only [scoreClarity]
  split_ifs with h1
  · exact ⟨le_refl 0, by norm_num, 0, by norm_num⟩
  all_goals
    exact ⟨le_max_left 0 _, max_le (by norm_num) (min_le_left _ _),
      exists_int_max ⟨0, by norm_num⟩ (exists_int_min ⟨100, by norm_num⟩ (exists_int_jsRoundQ _))⟩

lemma scoreSpam_bounds (s : List Char) :
    0 ≤ scoreSpam s ∧ scoreSpam s ≤ 100 ∧
      ∃ n : ℤ, scoreSpam s = (n : ℚ) := by
  simp only [scoreSpam]
  split_ifs <;>
    refine ⟨le_min (by norm_num) (by positivity), min_le_left _ _,
      exists_int_min ⟨100, by norm_num⟩ ?_⟩ <;>
    first
      | (refine ⟨(countMatches s TEMPLATE_PHRASES : ℤ) * 20, ?_⟩; push_cast; ring1)
      | (refine ⟨(countMatches s TEMPLATE_PHRASES : ℤ) * 20 + 15, ?_⟩; push_cast; ring1)
      | (refine ⟨(countMatches s TEMPLATE_PHRASES : ℤ) * 20 + 20, ?_⟩; push_cast; ring1)
      | (refine ⟨(countMatches s TEMPLATE_PHRASES : ℤ) * 20 + 25, ?_⟩; push_cast; ring1)
      | (refine ⟨(countMatches s TEMPLATE_PHRASES : ℤ) * 20 + 35, ?_⟩; push_cast; ring1)
      | (refine ⟨(countMatches s TEMPLATE_PHRASES : ℤ) * 20 + 40, ?_⟩; push_cast; ring1)
      | (refine ⟨(countMatches s TEMPLATE_PHRASES : ℤ) * 20 + 45, ?_⟩; push_cast; ring1)
      | (refine ⟨(countMatches s TEMPLATE_PHRASES : ℤ) * 20 + 55, ?_⟩; push_cast; ring1)
      | (refine ⟨(countMatches s TEMPLATE_PHRASES : ℤ) * 20 + 60, ?_⟩; push_cast; ring1)
      | (refine ⟨(countMatches s TEMPLATE_PHRASES : ℤ) * 20 + 65, ?_⟩; push_cast; ring1)
      | (refine ⟨(countMatches s TEMPLATE_PHRASES : ℤ) * 20 + 80, ?_⟩; push_cast; ring1)

lemma completeness_inner_nonneg (cb u : ℚ) (hcb : 0 ≤ cb) (hu : 0 ≤ u) :
    (0 : ℚ) ≤ 40 + cb + u * 30 := by linarith

lemma exists_int_two_jsRoundQ (x : ℚ) : ∃ n : ℤ, 2 * jsRoundQ x = (n : ℚ) :=
  ⟨2 * jsRound x, by unfold jsRoundQ; push_cast; ring⟩

lemma scoreCompleteness_bounds (t s : List Char) :
    0 ≤ scoreCompleteness t s ∧ scoreCompleteness t s ≤ 100 ∧
      ∃ n : ℤ, 2 * scoreCompleteness t s = (n : ℚ) := by
  simp only [scoreCompleteness]
  split_ifs with h1 h2 h3
  · refine ⟨le_min (by norm_num) (by positivity), (min_le_left _ _).trans (by norm_num), ?_⟩
    rw [two_mul_min]
    exact exists_int_min ⟨30, by norm_num⟩ ⟨4 * (wordCount s : ℤ), by push_cast; ring⟩
  · refine ⟨le_min (by norm_num) (by positivity), (min_le_left _ _).trans (by norm_num), ?_⟩
    rw [two_mul_min]
    exact exists_int_min ⟨70, by norm_num⟩ ⟨30 + 2 * (wordCount s : ℤ), by push_cast; ring⟩
  · refine ⟨le_min (by norm_num) (by positivity), (min_le_left _ _).trans (by norm_num), ?_⟩
    rw [two_mul_min]
    exact exists_int_min ⟨110, by norm_num⟩ ⟨60 + (wordCount s : ℤ), by push_cast; ring⟩
  all_goals
    refine ⟨le_min (by norm_num)
      (jsRoundQ_nonneg (completeness_inner_nonneg _ _
        (le_min (by norm_num) (by positivity)) (uniqueWordRatio_nonneg s))),
      min_le_left _ _, ?_⟩
  all_goals rw [two_mul_min]
  all_goals exact exists_int_min ⟨200, by norm_num⟩ (exists_int_two_jsRoundQ _)

-- --- Gate evaluator lemmas ---

@[simp] lemma relevanceFloorGF_forced : relevanceFloorGF.forced = Forced.REJECT := rfl

@[simp] lemma clarityFloorGF_forced : clarityFloorGF.forced = Forced.REJECT := rfl

@[simp] lemma spamCeilingGF_forced : spamCeilingGF.forced = Forced.REJECT := rfl

@[simp] lemma minLengthGF_forced : minLengthGF.forced = Forced.REJECT := rfl

@[simp] lemma spamWarningGF_forced : spamWarningGF.forced = Forced.REVIEW := rfl

@[simp] lemma completenessFloorGF_forced : completenessFloorGF.forced = Forced.REVIEW := rfl

@[simp] lemma vagueLanguageGF_forced : vagueLanguageGF.forced = Forced.REVIEW := rfl

@[simp] lemma reject_beq_reject : (Forced.REJECT == Forced.REJECT) = true := rfl

@[simp] lemma review_beq_reject : (Forced.REVIEW == Forced.REJECT) = false := rfl

@[simp] lemma reject_beq_review : (Forced.REJECT == Forced.REVIEW) = false := rfl

@[simp] lemma review_beq_review : (Forced.REVIEW == Forced.REVIEW) = true := rfl

@[simp] lemma hasForcedReject_nil : hasForcedReject [] = false := rfl

@[simp] lemma hasForcedReject_cons (f : GateFailure) (l : List GateFailure) :
    hasForcedReject (f :: l) = ((f.forced == Forced.REJECT) || hasForcedReject l) := by
  simp [hasForcedReject]

@[simp] lemma hasForcedReject_append (l1 l2 : List GateFailure) :
    hasForcedReject (l1 ++ l2) = (hasForcedReject l1 || hasForcedReject l2) := by
  simp [hasForcedReject]

@[simp] lemma hasForcedReject_ite (c : Prop) [Decidable c] (a b : List GateFailure) :
    hasForcedReject (if c then a else b) =
      if c then hasForcedReject a else hasForcedReject b := by
  split_ifs <;> rfl

@[simp] lemma hasForcedReview_nil : hasForcedReview [] = false := rfl

@[simp] lemma hasForcedReview_cons (f : GateFailure) (l : List GateFailure) :
    hasForcedReview (f :: l) = ((f.forced == Forced.REVIEW) || hasForcedReview l) := by
  simp [hasForcedReview]

lemma evaluateGates_eq (b : ScoreBreakdown) (text : List Char) :
    evaluateGates b text = gatesSpec b text := by
  simp only [evaluateGates, gatesSpec, rejectFailures, reviewFailures]
  by_cases h1 : b.relevance < 15 <;> by_cases h2 : b.clarity < 10 <;>
    by_cases h3 : b.spam > 60 <;> by_cases h4 : wordCount text < 8 <;>
    simp [h1, h2, h3, h4] <;> (try split_ifs) <;> simp_all

lemma rejectFailures_all_reject (b : ScoreBreakdown) (text : List Char) :
    (rejectFailures b text).all (fun f => f.forced == Forced.REJECT) = true := by
  unfold rejectFailures
  split_ifs <;> rfl

lemma reviewFailures_all_review (b : ScoreBreakdown) (text : List Char) :
    (reviewFailures b text).all (fun f => f.forced == Forced.REVIEW) = true := by
  unfold reviewFailures
  split_ifs <;> rfl

lemma rejectFailures_len (b : ScoreBreakdown) (text : List Char) :
    (rejectFailures b text).length ≤ 4 := by
  unfold rejectFailures
  split_ifs <;> simp

lemma reviewFailures_len (b : ScoreBreakdown) (text : List Char) :
    (reviewFailures b text).length ≤ 3 := by
  unfold reviewFailures
  split_ifs <;> simp

lemma gates_empty_of_no_forced {gs : List GateFailure}
    (hr : hasForcedReject gs = false) (hv : hasForcedReview gs = false) : gs = [] := by
  cases gs with
  | nil => rfl
  | cons f t =>
    exfalso
    cases hf : f.forced
    · rw [hasForcedReject_cons, hf] at hr
      simp at hr
    · rw [hasForcedReview_cons, hf] at hv
      simp at hv

-- --- runValidation projection lemmas ---

lemma runValidation_breakdown (t : List Char) (s : Json) (ts : List Char) :
    (runValidation t s ts).breakdown =
      { relevance := scoreRelevance t (flattenToText s),
        completeness := scoreCompleteness t (flattenToText s),
        clarity := scoreClarity (flattenToText s),
        spam := scoreSpam (flattenToText s) } := rfl

lemma runValidation_qualityScore (t : List Char) (s : Json) (ts : List Char) :
    (runValidation t s ts).qualityScore = jsRound
      (scoreRelevance t (flattenToText s) * 0.30 +
       scoreCompleteness t (flattenToText s) * 0.30 +
       scoreClarity (flattenToText s) * 0.25 +
       (100 - scoreSpam (flattenToText s)) * 0.15) := rfl

lemma runValidation_gateFailures (t : List Char) (s : Json) (ts : List Char) :
    (runValidation t s ts).gateFailures =
      evaluateGates (runValidation t s ts).breakdown (flattenToText s) := rfl

lemma runValidation_verdict (t : List Char) (s : Json) (ts : List Char) :
    (runValidation t s ts).verdict =
      computeVerdict (runValidation t s ts).qualityScore (runValidation t s ts).gateFailures := rfl

-- --- Claim theorems: gates and verdict ---

/-- C4: the gate evaluator returns its failures in the fixed order
RELEVANCE_FLOOR, CLARITY_FLOOR, SPAM_CEILING, MIN_LENGTH, then SPAM_WARNING,
COMPLETENESS_FLOOR, VAGUE_LANGUAGE; every REJECT-tier check fires
independently of the others (`rejectFailures` concatenates the four
independent checks in order), and each REVIEW-tier check is omitted exactly
when some REJECT-tier check fired (the REVIEW block is emitted exactly when
the REJECT block is empty, which happens exactly when none of the four
REJECT conditions holds). -/
theorem gates_fixed_order (b : ScoreBreakdown) (text : List Char) :
    evaluateGates b text = gatesSpec b text ∧
    (rejectFailures b text = [] ↔
      ¬(b.relevance < 15 ∨ b.clarity < 10 ∨ b.spam > 60 ∨ wordCount text < 8)) := by
  refine ⟨evaluateGates_eq b text, ?_⟩
  unfold rejectFailures
  split_ifs <;> simp_all

/-- C10: the returned gate-failure list is homogeneous — all entries forced
REJECT or all entries forced REVIEW — and never longer than 4. -/
theorem gateFailures_homogeneous (b : ScoreBreakdown) (text : List Char) :
    ((evaluateGates b text).all (fun f => f.forced == Forced.REJECT) = true ∨
     (evaluateGates b text).all (fun f => f.forced == Forced.REVIEW) = true) ∧
    (evaluateGates b text).length ≤ 4 := by
  rw [evaluateGates_eq]
  unfold gatesSpec
  by_cases h : rejectFailures b text = []
  · rw [h]
    constructor
    · right
      simpa using reviewFailures_all_review b text
    · simpa using (reviewFailures_len b text).trans (by norm_num)
  · rw [if_neg h]
    constructor
    · left
      simpa using rejectFailures_all_reject b text
    · simpa using rejectFailures_len b text

/-- C5: the verdict resolver returns REJECT exactly when some failure is
forced REJECT or the quality score is below 50; REVIEW exactly when there is
no forced REJECT, the score is at least 50, and either the score is below 75
or some failure is forced REVIEW; and ACCEPT exactly when the score is at
least 75 and the gate-failure list is empty. -/
theorem verdict_rules (q : ℤ) (gs : List GateFailure) :
    (computeVerdict q gs = Verdict.REJECT ↔ (hasForcedReject gs = true ∨ q < 50)) ∧
    (computeVerdict q gs = Verdict.REVIEW ↔
      (hasForcedReject gs = false ∧ 50 ≤ q ∧ (q < 75 ∨ hasForcedReview gs = true))) ∧
    (computeVerdict q gs = Verdict.ACCEPT ↔ (75 ≤ q ∧ gs = [])) := by
  simp only [computeVerdict]
  split_ifs with h1 h2 h3
  · refine ⟨by simp [h1], by simp [h1], ?_⟩
    refine iff_of_false (by decide) ?_
    rintro ⟨-, rfl⟩
    simp at h1
  · have h1f : hasForcedReject gs = false := by simpa using h1
    refine ⟨iff_of_true rfl (Or.inr h2), ?_, ?_⟩
    · refine iff_of_false (by decide) ?_
      rintro ⟨-, hq, -⟩
      omega
    · refine iff_of_false (by decide) ?_
      rintro ⟨hq, -⟩
      omega
  · have h1f : hasForcedReject gs = false := by simpa using h1
    refine ⟨?_, iff_of_true rfl ⟨h1f, by omega, h3⟩, ?_⟩
    · refine iff_of_false (by decide) ?_
      rintro (hc | hc)
      · rw [h1f] at hc
        exact absurd hc (by decide)
      · omega
    · refine iff_of_false (by decide) ?_
      rintro ⟨hq, rfl⟩
      rcases h3 with hc | hc
      · omega
      · simp at hc
  · have h1f : hasForcedReject gs = false := by simpa using h1
    have h3' : ¬ q < 75 ∧ hasForcedReview gs = false := by
      rw [not_or] at h3
      exact ⟨h3.1, by simpa using h3.2⟩
    refine ⟨?_, ?_, iff_of_true rfl ⟨by omega, gates_empty_of_no_forced h1f h3'.2⟩⟩
    · refine iff_of_false (by decide) ?_
      rintro (hc | hc)
      · rw [h1f] at hc
        exact absurd hc (by decide)
      · omega
    · refine iff_of_false (by decide) ?_
      rintro ⟨-, -, hc | hc⟩
      · exact h3'.1 hc
      · rw [h3'.2] at hc
        exact absurd hc (by decide)

lemma runValidation_relevance (t : List Char) (s : Json) (ts : List Char) :
    (runValidation t s ts).breakdown.relevance = scoreRelevance t (flattenToText s) := rfl

lemma runValidation_completeness (t : List Char) (s : Json) (ts : List Char) :
    (runValidation t s ts).breakdown.completeness = scoreCompleteness t (flattenToText s) := rfl

lemma runValidation_clarity (t : List Char) (s : Json) (ts : List Char) :
    (runValidation t s ts).breakdown.clarity = scoreClarity (flattenToText s) := rfl

lemma runValidation_spam (t : List Char) (s : Json) (ts : List Char) :
    (runValidation t s ts).breakdown.spam = scoreSpam (flattenToText s) := rfl

/-- C1: the returned qualityScore is exactly the JS rounding of
0.30·relevance + 0.30·completeness + 0.25·clarity + 0.15·(100 − spam) taken
over the breakdown fields of the same result, and it lies in [0, 100] (it is
an integer by construction: `Math.round` always yields one, so the embedding
carries it in ℤ). -/
theorem qualityScore_weighted (t : List Char) (s : Json) (ts : List Char) :
    (runValidation t s ts).qualityScore =
      jsRound (0.30 * (runValidation t s ts).breakdown.relevance +
               0.30 * (runValidation t s ts).breakdown.completeness +
               0.25 * (runValidation t s ts).breakdown.clarity +
               0.15 * (100 - (runValidation t s ts).breakdown.spam)) ∧
    0 ≤ (runValidation t s ts).qualityScore ∧
    (runValidation t s ts).qualityScore ≤ 100 := by
  obtain ⟨hr0, hr1, -⟩ := scoreRelevance_bounds t (flattenToText s)
  obtain ⟨hc0, hc1, -⟩ := scoreCompleteness_bounds t (flattenToText s)
  obtain ⟨hl0, hl1, -⟩ := scoreClarity_bounds (flattenToText s)
  obtain ⟨hs0, hs1, -⟩ := scoreSpam_bounds (flattenToText s)
  refine ⟨?_, ?_, ?_⟩
  · rw [runValidation_qualityScore, runValidation_relevance, runValidation_completeness,
      runValidation_clarity, runValidation_spam]
    congr 1
    ring
  · rw [runValidation_qualityScore]
    exact jsRound_nonneg (by nlinarith)
  · rw [runValidation_qualityScore]
    exact jsRound_le (by push_cast; nlinarith)

/-- C2 (amended): every breakdown field lies in [0, 100]; relevance, clarity
and spam are integers, while completeness is only guaranteed to be an
integer multiple of one half (in the 25–49-word tier the source computes
`min(55, 30 + n/2)`, a half-integer for odd n). -/
theorem breakdown_fields_bounded (t : List Char) (s : Json) (ts : List Char) :
    (0 ≤ (runValidation t s ts).breakdown.relevance ∧
      (runValidation t s ts).breakdown.relevance ≤ 100 ∧
      ∃ n : ℤ, (runValidation t s ts).breakdown.relevance = (n : ℚ)) ∧
    (0 ≤ (runValidation t s ts).breakdown.completeness ∧
      (runValidation t s ts).breakdown.completeness ≤ 100 ∧
      ∃ n : ℤ, 2 * (runValidation t s ts).breakdown.completeness = (n : ℚ)) ∧
    (0 ≤ (runValidation t s ts).breakdown.clarity ∧
      (runValidation t s ts).breakdown.clarity ≤ 100 ∧
      ∃ n : ℤ, (runValidation t s ts).breakdown.clarity = (n : ℚ)) ∧
    (0 ≤ (runValidation t s ts).breakdown.spam ∧
      (runValidation t s ts).breakdown.spam ≤ 100 ∧
      ∃ n : ℤ, (runValidation t s ts).breakdown.spam = (n : ℚ)) := by
  simp only [runValidation_relevance, runValidation_completeness,
    runValidation_clarity, runValidation_spam]
  exact ⟨scoreRelevance_bounds t _, scoreCompleteness_bounds t _,
    scoreClarity_bounds _, scoreSpam_bounds _⟩

def taskC2 : List Char := "task".toList

def subC2 : Json := Json.str ("a a a a a a a a a a a a a a a a a a a a a a a a a".toList)

/-- C2 counterexample: on a 25-word submission the completeness field equals
42.5 — not an integer, refuting "each breakdown field is an integer". -/
theorem breakdown_integer_counterexample :
    ¬ ∃ n : ℤ, (runValidation taskC2 subC2 []).breakdown.completeness = (n : ℚ) := by
  have hwc : wordCount (flattenToText subC2) = 25 := by decide
  have h : (runValidation taskC2 subC2 []).breakdown.completeness = 85 / 2 := by
    rw [runValidation_completeness]
    simp only [scoreCompleteness, hwc]
    norm_num
  rw [h]
  rintro ⟨n, hn⟩
  have h2 : (85 : ℚ) = (n : ℚ) * 2 := by
    field_simp at hn
    linarith
  have h3 : (85 : ℤ) = n * 2 := by exact_mod_cast h2
  omega

/-- C3: the relevance scorer agrees with the spec reading — 0 when the task
keyword set is empty or the submission has no qualifying words, otherwise
round(overlap·100) for overlap below 0.05 and min(100, round(overlap·120))
above, with overlap = (multiplicity-counted submission hits) / |task set|. -/
theorem relevance_matches_spec (task submission : List Char) :
    scoreRelevance task submission = relevanceSpec task submission := by
  simp only [scoreRelevance, relevanceSpec]
  set L := List.filter (fun w => decide (3 < w.length)) (splitOnPred isWS (lowerText task) []) with hL
  set S := List.filter (fun w => decide (3 < w.length)) (splitOnPred isWS (lowerText submission) []) with hS
  have hfil : List.filter (fun w => decide (w ∈ L.dedup)) S
      = List.filter (fun w => decide (w ∈ L.toFinset)) S := by
    apply List.filter_congr
    intro a _
    simp [List.mem_dedup, List.mem_toFinset]
  have hcard : L.toFinset.card = L.dedup.length := List.card_toFinset L
  have hcond : (L.dedup.length = 0 ∨ S.length = 0) ↔ (L.toFinset = ∅ ∨ S = []) := by
    apply or_congr
    · rw [← hcard, Finset.card_eq_zero]
    · exact List.length_eq_zero
  by_cases h : L.dedup.length = 0 ∨ S.length = 0
  · rw [if_pos h, if_pos (hcond.mp h)]
  · rw [if_neg h, if_neg (fun hc => h (hcond.mpr hc))]
    rw [hfil, hcard]

/-- C7: two runs on identical task and submission agree on the quality
score, the breakdown, the verdict, the gate failures and all three
fingerprints; only the timestamp argument differs. -/
theorem evaluation_deterministic (t : List Char) (s : Json) (ts1 ts2 : List Char) :
    (runValidation t s ts1).qualityScore = (runValidation t s ts2).qualityScore ∧
    (runValidation t s ts1).breakdown = (runValidation t s ts2).breakdown ∧
    (runValidation t s ts1).verdict = (runValidation t s ts2).verdict ∧
    (runValidation t s ts1).gateFailures = (runValidation t s ts2).gateFailures ∧
    (runValidation t s ts1).attestation.taskHash = (runValidation t s ts2).attestation.taskHash ∧
    (runValidation t s ts1).attestation.submissionHash
      = (runValidation t s ts2).attestation.submissionHash ∧
    (runValidation t s ts1).attestation.signature
      = (runValidation t s ts2).attestation.signature :=
  ⟨rfl, rfl, rfl, rfl, rfl, rfl, rfl⟩

-- --- Degenerate-input lemmas for the empty submission ---

lemma scoreRelevance_empty_sub (t : List Char) : scoreRelevance t [] = 0 := by
  have hS : (List.filter (fun w => decide (3 < w.length))
      (splitOnPred isWS (lowerText ([] : List Char)) [])) = [] := by decide
  simp [scoreRelevance, hS]

lemma scoreCompleteness_empty_sub (t : List Char) : scoreCompleteness t [] = 0 := by
  have h0 : wordCount ([] : List Char) = 0 := rfl
  simp only [scoreCompleteness, h0]
  norm_num

lemma scoreClarity_empty : scoreClarity ([] : List Char) = 0 := by
  have h0 : wordCount ([] : List Char) = 0 := rfl
  simp only [scoreClarity, h0]
  norm_num

lemma scoreSpam_empty : scoreSpam ([] : List Char) = 0 := by
  have hw : (splitOnPred isWS (lowerText ([] : List Char)) []).filter (fun w => !w.isEmpty)
      = [] := by decide
  have hc : countMatches ([] : List Char) TEMPLATE_PHRASES = 0 := by decide
  have hu : (([] : List Char).filter isUpperChar).length = 0 := rfl
  simp only [scoreSpam, hw, hc, hu]
  norm_num

/-- C9: evaluating any task against the empty submission object flattens to
empty text with word count 0, fires both MIN_LENGTH and CLARITY_FLOOR, and
yields the verdict REJECT. -/
theorem empty_submission_rejected (t ts : List Char) :
    flattenToText (Json.obj []) = [] ∧
    wordCount (flattenToText (Json.obj [])) = 0 ∧
    "MIN_LENGTH".toList ∈ (runValidation t (Json.obj []) ts).gateFailures.map GateFailure.gate ∧
    "CLARITY_FLOOR".toList ∈ (runValidation t (Json.obj []) ts).gateFailures.map GateFailure.gate ∧
    (runValidation t (Json.obj []) ts).verdict = Verdict.REJECT := by
  have hb : (runValidation t (Json.obj []) ts).breakdown = ⟨0, 0, 0, 0⟩ := by
    rw [runValidation_breakdown]
    have hfl : flattenToText (Json.obj []) = [] := rfl
    rw [hfl, scoreRelevance_empty_sub, scoreCompleteness_empty_sub,
      scoreClarity_empty, scoreSpam_empty]
  have hg : (runValidation t (Json.obj []) ts).gateFailures
      = [relevanceFloorGF, clarityFloorGF, minLengthGF] := by
    rw [runValidation_gateFailures, hb]
    show evaluateGates ⟨0, 0, 0, 0⟩ [] = _
    have h0 : wordCount ([] : List Char) = 0 := rfl
    have hv : countMatches ([] : List Char) VAGUE_PATTERNS = 0 := by decide
    simp only [evaluateGates, h0, hv]
    norm_num
  refine ⟨rfl, rfl, ?_, ?_, ?_⟩
  · rw [hg]
    decide
  · rw [hg]
    decide
  · rw [runValidation_verdict, hg]
    simp [computeVerdict]

-- --- Hash lemmas ---

lemma hashStep_eq_spec (h : ℤ) (c : ℕ) : hashStep h c = hashSpecStep h c := by
  simp only [hashStep, hashSpecStep, wrap32, toInt32]
  norm_num
  omega

lemma hashAcc_eq_spec (s : List Char) : hashAcc s = hashSpecAcc s := by
  unfold hashAcc hashSpecAcc
  have hstep : (fun (h : ℤ) (c : Char) => hashStep h c.toNat)
      = fun (h : ℤ) (c : Char) => hashSpecStep h c.toNat := by
    funext h c
    exact hashStep_eq_spec h c.toNat
  rw [hstep]

lemma hashStr_eq_spec (s : List Char) : hashStr s = hashSpec s := by
  unfold hashStr hashSpec
  rw [hashAcc_eq_spec]

/-- C6: the attestation's fingerprints are the rolling signed-32-bit hash of
the claim — seeded at 0, one wraparound per step of `(h<<5) - h + charCode`,
rendered as "0x" plus the 16-digit zero-padded hex of the absolute value —
applied to the task text, to the serialized submission, and (for the
signature) to task text ++ serialized submission ++ rendered qualityScore. -/
theorem attestation_fingerprints (t : List Char) (s : Json) (ts : List Char) :
    (runValidation t s ts).attestation.taskHash = hashSpec t ∧
    (runValidation t s ts).attestation.submissionHash = hashSpec (jsonStringify s) ∧
    (runValidation t s ts).attestation.signature =
      hashSpec (t ++ jsonStringify s ++ intToStr (runValidation t s ts).qualityScore) :=
  ⟨hashStr_eq_spec t, hashStr_eq_spec _, hashStr_eq_spec _⟩

-- --- Totality of the pipeline: every division is guarded ---

lemma uniqueWordRatioE_eq (t : List Char) : uniqueWordRatioE t = some (uniqueWordRatio t) := by
  simp only [uniqueWordRatioE, uniqueWordRatio]
  split_ifs with h
  · rfl
  · have hne : (((splitOnPred isWS (lowerText t) []).filter (fun w => !w.isEmpty)).length : ℚ)
        ≠ 0 := by exact_mod_cast h
    simp [checkedDiv, hne]

lemma scoreRelevanceE_eq (t s : List Char) : scoreRelevanceE t s = some (scoreRelevance t s) := by
  simp only [scoreRelevanceE, scoreRelevance]
  by_cases h : (List.filter (fun w => decide (3 < w.length))
        (splitOnPred isWS (lowerText t) [])).dedup.length = 0 ∨
      (List.filter (fun w => decide (3 < w.length))
        (splitOnPred isWS (lowerText s) [])).length = 0
  · rw [if_pos h, if_pos h]
  · rw [if_neg h, if_neg h]
    have hne : ((List.filter (fun w => decide (3 < w.length))
        (splitOnPred isWS (lowerText t) [])).dedup.length : ℚ) ≠ 0 := by
      rw [not_or] at h
      exact_mod_cast h.1
    simp only [checkedDiv, if_neg hne, Option.bind_eq_bind, Option.some_bind]
    split_ifs <;> rfl

lemma scoreCompletenessE_eq (t s : List Char) :
    scoreCompletenessE t s = some (scoreCompleteness t s) := by
  simp only [scoreCompletenessE, scoreCompleteness]
  split_ifs with h1 h2 h3 h4
  · rfl
  · rfl
  · simp [checkedDiv]
  · simp [checkedDiv, uniqueWordRatioE_eq]
  · have hne : (((List.filter (fun s => decide (10 < (jsTrim s).length))
        (splitOnPred isSentSep t [])).length : ℕ) : ℚ) * 20 ≠ 0 := by
      have : (List.filter (fun s => decide (10 < (jsTrim s).length))
          (splitOnPred isSentSep t [])).length ≠ 0 := h4
      positivity
    simp [checkedDiv, hne, uniqueWordRatioE_eq]

lemma scoreClarityE_eq (s : List Char) : scoreClarityE s = some (scoreClarity s) := by
  simp only [scoreClarityE, scoreClarity]
  by_cases h1 : wordCount s < 5
  · rw [if_pos h1, if_pos h1]
  · rw [if_neg h1, if_neg h1]
    simp only [uniqueWordRatioE_eq, Option.bind_eq_bind, Option.some_bind]

lemma scoreSpamE_eq (s : List Char) : scoreSpamE s = some (scoreSpam s) := by
  have hmax : max (1 : ℚ) ((s.length : ℕ) : ℚ) ≠ 0 := by positivity
  simp only [scoreSpamE, scoreSpam]
  by_cases h5 : 5 < ((splitOnPred isWS (lowerText s) []).filter (fun w => !w.isEmpty)).length <;>
    by_cases hr3 : uniqueWordRatio s < 0.3 <;>
    by_cases hr5 : uniqueWordRatio s < 0.5 <;>
    simp [h5, hr3, hr5, uniqueWordRatioE_eq, checkedDiv, hmax]

/-- C8: the evaluator is total — the variant of the pipeline in which every
division fails on a zero denominator never fails (each division of the
source is reached only with a nonzero denominator), and it produces the very
same fully-populated ValidationResult on every input. -/
theorem runValidation_total (t : List Char) (s : Json) (ts : List Char) :
    runValidationE t s ts = some (runValidation t s ts) := by
  simp only [runValidationE, scoreRelevanceE_eq, scoreCompletenessE_eq, scoreClarityE_eq,
    scoreSpamE_eq, Option.some_bind]
  rfl
